import Mathlib

/-!
Shallow embedding of the windowed triangle program of `thorus`
(`src/main.rs`, with `src/vertex.rs`), restricted to the parts the
verified properties need: the resource builders (`get_framebuffers`,
`get_pipeline`, `get_command_buffers`), the physical-device selection
(`select_physical_device`), and the frame loop of `main` (the winit
event-loop closure, `main.rs` lines 205-290) as an explicit state
machine over an event stream.

Opaque GPU handles (device, shader modules, render pass, buffers,
images) are modelled as natural-number identifiers: the program never
inspects them, it only threads them into the builders, so equality of
identifiers is all the embedding needs.  Vertex positions (`f32` pairs)
are modelled as rationals; only the vertex count is ever consumed by
the loop.  External interactions inside a `MainEventsCleared` tick
(the driver's reply to `Swapchain::recreate`, to `acquire_next_image`
and to the fence flush) are inputs of the tick, packaged in `TickEnv`.
-/

namespace Thorus

/-- Window / image extent in pixels (`PhysicalSize<u32>` resp.
`image_extent`). -/
structure Extent where
  width : Nat
  height : Nat
deriving DecidableEq, Repr

/-- `MyVertex` of `src/vertex.rs`: a single 2-d position attribute.
The `f32` coordinates are modelled as rationals. -/
structure MyVertex where
  position : Rat × Rat
deriving DecidableEq, Repr

/-- The triangle uploaded at startup (`main.rs` lines 145-168):
`[-0.5, -0.5]`, `[0.0, 0.5]`, `[0.5, -0.25]`. -/
def vertex_data : List MyVertex :=
  [ { position := (-(1/2), -(1/2)) }
  , { position := (0, 1/2) }
  , { position := (1/2, -(1/4)) } ]

/-- The vertex buffer produced by `Buffer::from_iter`: an opaque buffer
handle together with its contents. -/
structure VertexBuffer where
  id : Nat
  data : List MyVertex
deriving DecidableEq, Repr

/-- Opaque handle of the logical device. -/
def device_id : Nat := 0
/-- Opaque handle of the vertex shader module. -/
def vs_id : Nat := 1
/-- Opaque handle of the fragment shader module. -/
def fs_id : Nat := 2
/-- Opaque handle of the render pass built once by `get_render_pass`. -/
def render_pass_id : Nat := 3
/-- Opaque handle of the vertex buffer built once at startup. -/
def vertex_buffer_id : Nat := 4

/-- The startup vertex buffer. -/
def vertex_buffer : VertexBuffer :=
  { id := vertex_buffer_id, data := vertex_data }

/-- The swapchain: its image extent and the ordered images the driver
handed back (`Swapchain::new` / `Swapchain::recreate`).  The other
creation parameters (format, usage, composite alpha) are fixed for the
whole run and carried by `swapchain.create_info()` unchanged, so they
are omitted. -/
structure Swapchain where
  imageExtent : Extent
  images : List Nat
deriving DecidableEq, Repr

/-- A framebuffer as built by `get_framebuffers`: the default image
view of one swapchain image, attached to the render pass. -/
structure Framebuffer where
  image : Nat
  renderPass : Nat
deriving DecidableEq, Repr

/-- `get_framebuffers` (`main.rs` lines 342-359): one framebuffer per
image, in order, each holding that image's view and the render pass. -/
def get_framebuffers (images : List Nat) (render_pass : Nat) :
    List Framebuffer :=
  images.map (fun image => { image := image, renderPass := render_pass })

/-- The viewport handed to the pipeline builder.  In the source the
offset is fixed at `[0.0, 0.0]` and the depth range at `0.0..=1.0` and
neither ever changes (`main.rs` lines 177-181 and 236), so only the
extent is carried. -/
structure Viewport where
  extent : Extent
deriving DecidableEq, Repr

/-- A graphics pipeline as built by `get_pipeline`: fully determined by
the device, the two shader modules, the render pass and the viewport
(all remaining creation state in `main.rs` lines 397-418 is the default,
derived from these inputs). -/
structure Pipeline where
  device : Nat
  vs : Nat
  fs : Nat
  renderPass : Nat
  viewport : Viewport
deriving DecidableEq, Repr

/-- `get_pipeline` (`main.rs` lines 361-419): deterministic in its
inputs. -/
def get_pipeline (device vs fs render_pass : Nat) (viewport : Viewport) :
    Pipeline :=
  { device := device, vs := vs, fs := fs, renderPass := render_pass,
    viewport := viewport }

/-- One recorded draw call (`AutoCommandBufferBuilder::draw`). -/
structure DrawCall where
  vertex_count : Nat
  instance_count : Nat
  first_vertex : Nat
  first_instance : Nat
deriving DecidableEq, Repr

/-- A prerecorded primary command buffer as built by
`get_command_buffers`: begin render pass on one framebuffer, bind the
pipeline, bind the vertex buffer, the recorded draw calls, end render
pass. -/
structure CommandBuffer where
  framebuffer : Framebuffer
  pipeline : Pipeline
  vertexBuffer : Nat
  draws : List DrawCall
deriving DecidableEq, Repr

/-- `get_command_buffers` (`main.rs` lines 421-462): one command buffer
per framebuffer, in order; each records exactly one draw with
`vertex_count = vertex_buffer.len()`, `instance_count = 1`,
`first_vertex = 0`, `first_instance = 0`. -/
def get_command_buffers (pipeline : Pipeline)
    (framebuffers : List Framebuffer) (vb : VertexBuffer) :
    List CommandBuffer :=
  framebuffers.map (fun framebuffer =>
    { framebuffer := framebuffer
      pipeline := pipeline
      vertexBuffer := vb.id
      draws := [ { vertex_count := vb.data.length, instance_count := 1,
                   first_vertex := 0, first_instance := 0 } ] })

/-! ## The frame loop as a state machine

`main`'s winit closure (`main.rs` lines 205-290) is embedded as a step
function over an explicit state.  `windowSize` models the winit
window's current inner size (`window.inner_size()`); a
`Event.resized sz` both records the window's new size and runs the
closure's handler, which discards the event payload
(`WindowEvent::Resized(_)`) and only raises `window_resized`.
`exited` models `ControlFlow::Exit`; `panicked` models a Rust panic
(`panic!`, `expect`, `unwrap`, out-of-bounds indexing) terminating the
process.  Observable calls made during a step are reported as a list
of `Action`s. -/

/-- Driver reply to `Swapchain::recreate` (`main.rs` lines 224-229):
either the new image list, or any error (the source `expect`s it). -/
inductive RecreateResult where
  | ok (images : List Nat)
  | error
deriving DecidableEq, Repr

/-- Driver reply to `swapchain::acquire_next_image` (`main.rs` lines
253-263), after `Validated::unwrap`: an image index with the
`suboptimal` flag, `VulkanError::OutOfDate`, or any other error. -/
inductive AcquireResult where
  | ok (image_i : Nat) (suboptimal : Bool)
  | outOfDate
  | err
deriving DecidableEq, Repr

/-- Driver reply to `then_signal_fence_and_flush` (`main.rs` lines
277-287), after `Validated::unwrap`. -/
inductive FlushResult where
  | ok
  | outOfDate
  | err
deriving DecidableEq, Repr

/-- The external replies consumed by one `MainEventsCleared` tick. -/
structure TickEnv where
  recreate : RecreateResult
  acquire : AcquireResult
  flush : FlushResult
deriving DecidableEq, Repr

/-- Events delivered to the closure.  `resized` carries the window's
new inner size; `other` stands for every event the closure ignores
(its `_ => ()` arm). -/
inductive Event where
  | closeRequested
  | resized (size : Extent)
  | mainEventsCleared (env : TickEnv)
  | other
deriving DecidableEq, Repr

/-- Observable calls issued during one step. -/
inductive Action where
  | recreateChain (extent : Extent)
  | rebuildCommands
  | submitPresent (image_i : Nat)
  | logWarn
  | panicAct
deriving DecidableEq, Repr

/-- The loop's mutable state: the captured `mut` variables of `main`
(`window_resized`, `recreate_swapchain`, `swapchain`, `viewport`,
`command_buffers`) together with the window size and the two
termination flags. -/
structure LoopState where
  windowSize : Extent
  window_resized : Bool
  recreate_swapchain : Bool
  swapchain : Swapchain
  viewport : Viewport
  command_buffers : List CommandBuffer
  exited : Bool
  panicked : Bool
deriving DecidableEq, Repr

/-- Acquisition, submission, present and flush of one tick (`main.rs`
lines 253-287), run after the rebuild phase.  `acquire_next_image`
out-of-date raises the rebuild flag and returns early; any other
acquisition error is a `panic!`.  On success the command buffer at the
acquired index is submitted and presented (Rust panics if the index is
out of bounds of `command_buffers`); a flush out-of-date raises the
rebuild flag, any other flush error is logged with `warn!`. -/
def acquireAndPresent (s : LoopState) (env : TickEnv) :
    LoopState × List Action :=
  match env.acquire with
  | AcquireResult.outOfDate => ({ s with recreate_swapchain := true }, [])
  | AcquireResult.err => ({ s with panicked := true }, [Action.panicAct])
  | AcquireResult.ok image_i suboptimal =>
    let s := if suboptimal then { s with recreate_swapchain := true } else s
    if image_i < s.command_buffers.length then
      match env.flush with
      | FlushResult.ok => (s, [Action.submitPresent image_i])
      | FlushResult.outOfDate =>
          ({ s with recreate_swapchain := true },
           [Action.submitPresent image_i])
      | FlushResult.err =>
          (s, [Action.submitPresent image_i, Action.logWarn])
    else
      ({ s with panicked := true }, [Action.panicAct])

/-- One `MainEventsCleared` tick (`main.rs` lines 218-288).  If either
flag is set, the swapchain is recreated at the window's current inner
size and fresh framebuffers are derived; only when `window_resized`
was set are the viewport updated, a new pipeline built and the command
buffers rebuilt — an out-of-date-only pass leaves `command_buffers`
untouched (the fresh framebuffers of that pass are dropped, mirroring
the source's `new_framebuffers` local).  A failed recreate is an
`expect`, i.e. a panic. -/
def stepTick (s : LoopState) (env : TickEnv) : LoopState × List Action :=
  if s.window_resized || s.recreate_swapchain then
    let s1 := { s with recreate_swapchain := false }
    let new_dimensions := s1.windowSize
    match env.recreate with
    | RecreateResult.error => ({ s1 with panicked := true }, [Action.panicAct])
    | RecreateResult.ok new_images =>
      let s2 := { s1 with
        swapchain := { imageExtent := new_dimensions, images := new_images } }
      let new_framebuffers := get_framebuffers new_images render_pass_id
      let (s3, rebuildActs) :=
        if s2.window_resized then
          let s2a := { s2 with window_resized := false }
          let viewport : Viewport := { extent := new_dimensions }
          let new_pipeline :=
            get_pipeline device_id vs_id fs_id render_pass_id viewport
          ({ s2a with
              viewport := viewport
              command_buffers :=
                get_command_buffers new_pipeline new_framebuffers
                  vertex_buffer },
           [Action.recreateChain new_dimensions, Action.rebuildCommands])
        else (s2, [Action.recreateChain new_dimensions])
      let (s4, acqActs) := acquireAndPresent s3 env
      (s4, rebuildActs ++ acqActs)
  else acquireAndPresent s env

/-- One step of the closure on one event (`main.rs` lines 205-290). -/
def step (s : LoopState) (e : Event) : LoopState × List Action :=
  match e with
  | Event.closeRequested => ({ s with exited := true }, [])
  | Event.resized sz =>
      ({ s with windowSize := sz, window_resized := true }, [])
  | Event.mainEventsCleared env => stepTick s env
  | Event.other => (s, [])

/-- The state after one step. -/
def stepState (s : LoopState) (e : Event) : LoopState := (step s e).1

/-- Run the loop over an event list; a state that has exited or
panicked consumes no further events. -/
def run (s : LoopState) : List Event → LoopState
  | [] => s
  | e :: es => if s.exited || s.panicked then s else run (stepState s e) es

/-- The state entering the event loop (`main.rs` lines 97-203): the
swapchain at the window's startup inner size with the driver's initial
images, the viewport at the same size, framebuffers, pipeline and
command buffers built once, both flags clear. -/
def initialState (initSize : Extent) (initImages : List Nat) : LoopState :=
  { windowSize := initSize
    window_resized := false
    recreate_swapchain := false
    swapchain := { imageExtent := initSize, images := initImages }
    viewport := { extent := initSize }
    command_buffers :=
      get_command_buffers
        (get_pipeline device_id vs_id fs_id render_pass_id
          { extent := initSize })
        (get_framebuffers initImages render_pass_id) vertex_buffer
    exited := false
    panicked := false }

/-! ## Physical-device selection (`select_physical_device`) -/

/-- A Vulkan API version (major, minor, patch), ordered
lexicographically as vulkano's `Version` is. -/
structure Version where
  major : Nat
  minor : Nat
  patch : Nat
deriving DecidableEq, Repr

/-- Lexicographic order on versions. -/
def Version.le (a b : Version) : Bool :=
  Nat.blt a.major b.major ||
    (Nat.beq a.major b.major &&
      (Nat.blt a.minor b.minor ||
        (Nat.beq a.minor b.minor && Nat.ble a.patch b.patch)))

/-- `Version::V1_3`. -/
def V1_3 : Version := { major := 1, minor := 3, patch := 0 }

/-- One queue family of a physical device, restricted to what the
selection reads: whether `queue_flags` contains `GRAPHICS`, and the
result of `surface_support` for this family on the program's surface
(`none` models the call failing, which `unwrap_or(false)` absorbs). -/
structure QueueFamily where
  hasGraphics : Bool
  surfaceSupport : Option Bool
deriving DecidableEq, Repr

/-- `PhysicalDeviceType` of vulkano; `other` covers every variant the
ranking's wildcard arm catches (including `Other` and any future
variant). -/
inductive PhysicalDeviceType where
  | discreteGpu
  | integratedGpu
  | virtualGpu
  | cpu
  | other
deriving DecidableEq, Repr

/-- A physical device, restricted to what the selection reads:
`api_version()`, whether `supported_extensions().contains(...)` holds
for the required device extensions, the queue families, and the device
type. -/
structure PhysicalDevice where
  apiVersion : Version
  supportsRequiredExtensions : Bool
  queueFamilies : List QueueFamily
  deviceType : PhysicalDeviceType
deriving DecidableEq, Repr

/-- `surface_support(i, surface).unwrap_or(false)`: also false when the
index is out of range. -/
def surface_support (d : PhysicalDevice) (i : Nat) : Bool :=
  (d.queueFamilies.get? i).elim false (fun q => q.surfaceSupport.getD false)

/-- The inner queue-family search of `select_physical_device`
(`main.rs` lines 303-311): enumerate the families, keep the indices of
those with the `GRAPHICS` flag, take the first of those that supports
the surface. -/
def findQueueFamily (d : PhysicalDevice) : Option Nat :=
  (d.queueFamilies.enum.filterMap (fun iq =>
      if iq.2.hasGraphics then some iq.1 else none)).find?
    (fun i => surface_support d i)

/-- The ranking key of `max_by_key` (`main.rs` lines 313-319). -/
def deviceRank (t : PhysicalDeviceType) : Nat :=
  match t with
  | PhysicalDeviceType.discreteGpu => 0
  | PhysicalDeviceType.integratedGpu => 1
  | PhysicalDeviceType.virtualGpu => 2
  | PhysicalDeviceType.cpu => 3
  | PhysicalDeviceType.other => 4

/-- Rust's `Iterator::max_by_key`: the LAST element attaining the
maximal key, `none` on an empty iterator. -/
def maxByKeyLast {A : Type} (key : A → Nat) : List A → Option A
  | [] => none
  | x :: xs =>
    some ((maxByKeyLast key xs).elim x
      (fun m => if key m < key x then x else m))

/-- The devices surviving the three filtering stages of
`select_physical_device`, each paired with its chosen queue-family
index. -/
def eligibleDevices (devices : List PhysicalDevice) :
    List (PhysicalDevice × Nat) :=
  ((devices.filter (fun d => Version.le V1_3 d.apiVersion)).filter
      (fun d => d.supportsRequiredExtensions)).filterMap
    (fun d => (findQueueFamily d).map (fun i => (d, i)))

/-- `select_physical_device` (`main.rs` lines 293-321): filter by API
version ≥ 1.3, by extension support, pair each remaining device with a
graphics-and-present queue family, and take the maximum of the ranking
key; `none` models the final `expect("no devices available")`. -/
def select_physical_device (devices : List PhysicalDevice) :
    Option (PhysicalDevice × Nat) :=
  maxByKeyLast (fun di => deviceRank di.1.deviceType)
    (eligibleDevices devices)

/-! ## Helper lemmas about the step function -/

/-- The state produced by the rebuild phase of a tick entered with
`window_resized` clear and `recreate_swapchain` set: only the flag and
the swapchain change. -/
def rebuildChainOnly (s : LoopState) (imgs : List Nat) : LoopState :=
  { s with recreate_swapchain := false
           swapchain := { imageExtent := s.windowSize, images := imgs } }

/-- The state produced by the rebuild phase of a tick entered with
`window_resized` set: chain, viewport and command buffers all renewed
at the window's current size. -/
def rebuildAll (s : LoopState) (imgs : List Nat) : LoopState :=
  { s with recreate_swapchain := false
           window_resized := false
           swapchain := { imageExtent := s.windowSize, images := imgs }
           viewport := { extent := s.windowSize }
           command_buffers :=
             get_command_buffers
               (get_pipeline device_id vs_id fs_id render_pass_id
                 { extent := s.windowSize })
               (get_framebuffers imgs render_pass_id) vertex_buffer }

lemma acquireAndPresent_preserves (s : LoopState) (env : TickEnv) :
    (acquireAndPresent s env).1.command_buffers = s.command_buffers
    ∧ (acquireAndPresent s env).1.swapchain = s.swapchain
    ∧ (acquireAndPresent s env).1.windowSize = s.windowSize
    ∧ (acquireAndPresent s env).1.window_resized = s.window_resized
    ∧ (acquireAndPresent s env).1.viewport = s.viewport
    ∧ (acquireAndPresent s env).1.exited = s.exited := by
  unfold acquireAndPresent
  cases env.acquire with
  | outOfDate => simp
  | err => simp
  | ok i sub =>
    cases sub <;> simp <;> split <;> cases env.flush <;> simp

lemma acquireAndPresent_no_recreate_action (s : LoopState) (env : TickEnv)
    (e : Extent) :
    Action.recreateChain e ∉ (acquireAndPresent s env).2 := by
  unfold acquireAndPresent
  cases env.acquire with
  | outOfDate => simp
  | err => simp
  | ok i sub =>
    cases sub <;> simp <;> split <;> cases env.flush <;> simp

lemma acquireAndPresent_ood (s : LoopState) (env : TickEnv)
    (hacq : env.acquire = AcquireResult.outOfDate) :
    acquireAndPresent s env = ({ s with recreate_swapchain := true }, []) := by
  unfold acquireAndPresent
  rw [hacq]

lemma acquireAndPresent_err (s : LoopState) (env : TickEnv)
    (hacq : env.acquire = AcquireResult.err) :
    acquireAndPresent s env
      = ({ s with panicked := true }, [Action.panicAct]) := by
  unfold acquireAndPresent
  rw [hacq]

lemma acquireAndPresent_suboptimal (s : LoopState) (env : TickEnv) (i : Nat)
    (hacq : env.acquire = AcquireResult.ok i true)
    (hi : i < s.command_buffers.length) :
    (acquireAndPresent s env).1.recreate_swapchain = true
    ∧ Action.submitPresent i ∈ (acquireAndPresent s env).2 := by
  unfold acquireAndPresent
  rw [hacq]
  cases env.flush <;> simp [hi]

lemma stepTick_no_rebuild (s : LoopState) (env : TickEnv)
    (hwr : s.window_resized = false) (hrs : s.recreate_swapchain = false) :
    stepTick s env = acquireAndPresent s env := by
  unfold stepTick
  rw [hwr, hrs]
  simp

lemma stepTick_ood_only (s : LoopState) (env : TickEnv) (imgs : List Nat)
    (hwr : s.window_resized = false) (hrs : s.recreate_swapchain = true)
    (hrec : env.recreate = RecreateResult.ok imgs) :
    stepTick s env =
      ((acquireAndPresent (rebuildChainOnly s imgs) env).1,
       Action.recreateChain s.windowSize ::
         (acquireAndPresent (rebuildChainOnly s imgs) env).2) := by
  unfold stepTick
  rw [hwr, hrs]
  simp only [Bool.or_true, if_true, hrec]
  simp [rebuildChainOnly, hwr]

lemma stepTick_resized (s : LoopState) (env : TickEnv) (imgs : List Nat)
    (hwr : s.window_resized = true)
    (hrec : env.recreate = RecreateResult.ok imgs) :
    stepTick s env =
      ((acquireAndPresent (rebuildAll s imgs) env).1,
       Action.recreateChain s.windowSize :: Action.rebuildCommands ::
         (acquireAndPresent (rebuildAll s imgs) env).2) := by
  unfold stepTick
  rw [hwr]
  simp only [Bool.true_or, if_true, hrec]
  simp [rebuildAll, hwr]

lemma stepTick_recreate_error (s : LoopState) (env : TickEnv)
    (h : s.window_resized = true ∨ s.recreate_swapchain = true)
    (hrec : env.recreate = RecreateResult.error) :
    stepTick s env =
      ({ s with recreate_swapchain := false, panicked := true },
       [Action.panicAct]) := by
  unfold stepTick
  rcases h with h | h <;> rw [h] <;> simp [hrec]

lemma length_get_command_buffers (pl : Pipeline) (fbs : List Framebuffer)
    (vb : VertexBuffer) :
    (get_command_buffers pl fbs vb).length = fbs.length := by
  simp [get_command_buffers]

lemma length_get_framebuffers (imgs : List Nat) (rp : Nat) :
    (get_framebuffers imgs rp).length = imgs.length := by
  simp [get_framebuffers]

lemma run_halted (s : LoopState) (es : List Event)
    (h : s.exited = true ∨ s.panicked = true) :
    run s es = s := by
  cases es with
  | nil => rfl
  | cons e es =>
    unfold run
    rcases h with h | h <;> rw [h] <;> simp

/-! ## Concrete scenario used by counterexamples -/

/-- Startup state: an 800×600 window, a three-image chain. -/
def s0 : LoopState := initialState { width := 800, height := 600 } [0, 1, 2]

/-- A tick whose acquisition reports out-of-date. -/
def envOOD : TickEnv :=
  { recreate := RecreateResult.ok [0, 1, 2]
    acquire := AcquireResult.outOfDate
    flush := FlushResult.ok }

/-- A tick whose swapchain recreation hands back three fresh images
and whose acquisition and flush succeed. -/
def envNew3 : TickEnv :=
  { recreate := RecreateResult.ok [10, 11, 12]
    acquire := AcquireResult.ok 0 false
    flush := FlushResult.ok }

/-- A tick whose swapchain recreation hands back four fresh images
and whose acquisition and flush succeed. -/
def envNew4 : TickEnv :=
  { recreate := RecreateResult.ok [10, 11, 12, 13]
    acquire := AcquireResult.ok 0 false
    flush := FlushResult.ok }

/-- The startup state with a resize pending. -/
def sR : LoopState := { s0 with window_resized := true }

/-- The startup state with an out-of-date report pending. -/
def sOOD : LoopState := { s0 with recreate_swapchain := true }

/-! ## C1 -/

/-- C1 (counterexample): starting from the startup state, a tick whose
acquisition reports out-of-date followed by a tick whose recreation
succeeds with fresh images leaves the command sequence referencing the
OLD frame resources: entry 0 does not reference the current
FrameResource[0], refuting the claim that an out-of-date-only rebuild
also rebuilds the command sequence. -/
theorem C1_counterexample :
    ((run s0 [Event.mainEventsCleared envOOD,
              Event.mainEventsCleared envNew3]).command_buffers.get? 0).map
        CommandBuffer.framebuffer
      ≠ (get_framebuffers
          (run s0 [Event.mainEventsCleared envOOD,
                   Event.mainEventsCleared envNew3]).swapchain.images
          render_pass_id).get? 0 := by
  decide

/-- C1 (amended): after a rebuild entered with a resize pending, every
command buffer at index `i` references the new FrameResource at index
`i` and the pipeline freshly built at the window's current size; but a
rebuild triggered only by an out-of-date report leaves the entire
CommandSequence unchanged (still referencing the previous frame
resources and pipeline). -/
theorem C1_command_sequence_rebuild (s : LoopState) (env : TickEnv)
    (imgs : List Nat) (hrec : env.recreate = RecreateResult.ok imgs) :
    (s.window_resized = true →
      (∀ i, (((step s (Event.mainEventsCleared env)).1.command_buffers.get?
                i).map CommandBuffer.framebuffer)
          = (get_framebuffers
              (step s (Event.mainEventsCleared env)).1.swapchain.images
              render_pass_id).get? i)
      ∧ ∀ cb ∈ (step s (Event.mainEventsCleared env)).1.command_buffers,
          cb.pipeline = get_pipeline device_id vs_id fs_id render_pass_id
            { extent := s.windowSize })
    ∧ (s.window_resized = false → s.recreate_swapchain = true →
        (step s (Event.mainEventsCleared env)).1.command_buffers
          = s.command_buffers) := by
  constructor
  · intro hwr
    have hstep : (step s (Event.mainEventsCleared env)).1
        = (acquireAndPresent (rebuildAll s imgs) env).1 := by
      show (stepTick s env).1 = _
      rw [stepTick_resized s env imgs hwr hrec]
    obtain ⟨hcb, hsw, -⟩ := acquireAndPresent_preserves (rebuildAll s imgs) env
    constructor
    · intro i
      rw [hstep, hcb, hsw]
      simp only [rebuildAll, get_command_buffers, get_framebuffers,
        List.get?_eq_getElem?, List.getElem?_map]
      cases imgs[i]? <;> rfl
    · intro cb hcb2
      rw [hstep, hcb] at hcb2
      simp [rebuildAll, get_command_buffers] at hcb2
      obtain ⟨fb, -, rfl⟩ := hcb2
      rfl
  · intro hwr hrs
    have hstep : (step s (Event.mainEventsCleared env)).1
        = (acquireAndPresent (rebuildChainOnly s imgs) env).1 := by
      show (stepTick s env).1 = _
      rw [stepTick_ood_only s env imgs hwr hrs hrec]
    obtain ⟨hcb, -⟩ := acquireAndPresent_preserves (rebuildChainOnly s imgs) env
    rw [hstep, hcb]
    rfl

/-- C1 witness: the amended theorem instantiated at the startup state
with a resize pending (index 0 match against the fresh frame
resources) and at the startup state with only an out-of-date report
pending (command sequence untouched). -/
theorem C1_command_sequence_rebuild_witness :
    ((((step sR (Event.mainEventsCleared envNew3)).1.command_buffers.get?
          0).map CommandBuffer.framebuffer)
      = (get_framebuffers
          (step sR (Event.mainEventsCleared envNew3)).1.swapchain.images
          render_pass_id).get? 0)
    ∧ (step sOOD (Event.mainEventsCleared envNew3)).1.command_buffers
        = sOOD.command_buffers :=
  ⟨((C1_command_sequence_rebuild sR envNew3 [10, 11, 12] rfl).1 rfl).1 0,
   (C1_command_sequence_rebuild sOOD envNew3 [10, 11, 12] rfl).2 rfl rfl⟩

/-! ## C2 -/

/-- C2 (counterexample): starting from the startup state (three
images, three command buffers), a tick whose acquisition reports
out-of-date followed by a tick whose recreation hands back FOUR images
leaves the command sequence at length 3 while the new chain has 4
images, refuting the claim for the out-of-date-triggered rebuild. -/
theorem C2_counterexample :
    ¬ ((run s0 [Event.mainEventsCleared envOOD,
                Event.mainEventsCleared envNew4]).command_buffers.length
        = (run s0 [Event.mainEventsCleared envOOD,
                   Event.mainEventsCleared envNew4]).swapchain.images.length)
    := by
  decide

/-- C2 (amended): the CommandSequence length equals the chain's image
count after the initial build and after any resize-triggered rebuild;
after an out-of-date-only rebuild the CommandSequence is unchanged, so
its length equals the PREVIOUS chain's command-buffer count, not
necessarily the new chain's image count. -/
theorem C2_command_sequence_length (initSize : Extent) (imgs0 : List Nat)
    (s : LoopState) (env : TickEnv) (imgs : List Nat)
    (hrec : env.recreate = RecreateResult.ok imgs) :
    (initialState initSize imgs0).command_buffers.length
        = (initialState initSize imgs0).swapchain.images.length
    ∧ (s.window_resized = true →
        (step s (Event.mainEventsCleared env)).1.command_buffers.length
          = (step s (Event.mainEventsCleared env)).1.swapchain.images.length)
    ∧ (s.window_resized = false → s.recreate_swapchain = true →
        (step s (Event.mainEventsCleared env)).1.command_buffers.length
          = s.command_buffers.length) := by
  refine ⟨?_, ?_, ?_⟩
  · simp [initialState, length_get_command_buffers, length_get_framebuffers]
  · intro hwr
    have hstep : (step s (Event.mainEventsCleared env)).1
        = (acquireAndPresent (rebuildAll s imgs) env).1 := by
      show (stepTick s env).1 = _
      rw [stepTick_resized s env imgs hwr hrec]
    obtain ⟨hcb, hsw, -⟩ := acquireAndPresent_preserves (rebuildAll s imgs) env
    rw [hstep, hcb, hsw]
    simp [rebuildAll, length_get_command_buffers, length_get_framebuffers]
  · intro hwr hrs
    have hstep : (step s (Event.mainEventsCleared env)).1
        = (acquireAndPresent (rebuildChainOnly s imgs) env).1 := by
      show (stepTick s env).1 = _
      rw [stepTick_ood_only s env imgs hwr hrs hrec]
    obtain ⟨hcb, -⟩ := acquireAndPresent_preserves (rebuildChainOnly s imgs) env
    rw [hstep, hcb]
    rfl

/-- C2 witness: the amended theorem instantiated at the startup state
(initial build), at the startup state with a resize pending, and at
the startup state with only an out-of-date report pending. -/
theorem C2_command_sequence_length_witness :
    ((initialState { width := 800, height := 600 }
        [0, 1, 2]).command_buffers.length
      = (initialState { width := 800, height := 600 }
          [0, 1, 2]).swapchain.images.length)
    ∧ ((step sR (Event.mainEventsCleared envNew3)).1.command_buffers.length
        = (step sR
            (Event.mainEventsCleared envNew3)).1.swapchain.images.length)
    ∧ ((step sOOD (Event.mainEventsCleared envNew3)).1.command_buffers.length
        = sOOD.command_buffers.length) :=
  ⟨(C2_command_sequence_length { width := 800, height := 600 } [0, 1, 2] s0
      envNew3 [10, 11, 12] rfl).1,
   (C2_command_sequence_length { width := 800, height := 600 } [0, 1, 2] sR
      envNew3 [10, 11, 12] rfl).2.1 rfl,
   (C2_command_sequence_length { width := 800, height := 600 } [0, 1, 2] sOOD
      envNew3 [10, 11, 12] rfl).2.2 rfl rfl⟩

/-! ## C3 -/

/-- A tick whose acquisition fails with an error other than
out-of-date. -/
def envAcqErr : TickEnv :=
  { recreate := RecreateResult.ok [0, 1, 2]
    acquire := AcquireResult.err
    flush := FlushResult.ok }

/-- A tick whose acquisition succeeds and whose flush fails with an
error other than out-of-date. -/
def envFlushErr : TickEnv :=
  { recreate := RecreateResult.ok [0, 1, 2]
    acquire := AcquireResult.ok 0 false
    flush := FlushResult.err }

/-- C3 (counterexample): a tick in which image acquisition fails with
an error other than out-of-date/suboptimal panics — the process
terminates (`main.rs` line 262) and the loop consumes no further
events — refuting the claim that every such error is logged and the
loop continues. -/
theorem C3_counterexample :
    (stepState s0 (Event.mainEventsCleared envAcqErr)).panicked = true
    ∧ run (stepState s0 (Event.mainEventsCleared envAcqErr))
        [Event.mainEventsCleared envNew3]
      = stepState s0 (Event.mainEventsCleared envAcqErr) := by
  decide

/-- C3 (amended): a present/flush error other than out-of-date is
logged with `warn!` and the loop survives the tick (no panic, no
exit); but an acquisition error other than out-of-date terminates the
process with a panic. -/
theorem C3_other_error_handling (s : LoopState) (env₁ env₂ : TickEnv)
    (i : Nat) (sub : Bool)
    (hwr : s.window_resized = false) (hrs : s.recreate_swapchain = false)
    (hacq1 : env₁.acquire = AcquireResult.ok i sub)
    (hi : i < s.command_buffers.length)
    (hfl : env₁.flush = FlushResult.err)
    (hacq2 : env₂.acquire = AcquireResult.err) :
    (Action.logWarn ∈ (step s (Event.mainEventsCleared env₁)).2
      ∧ (step s (Event.mainEventsCleared env₁)).1.panicked = s.panicked
      ∧ (step s (Event.mainEventsCleared env₁)).1.exited = s.exited)
    ∧ (step s (Event.mainEventsCleared env₂)).1.panicked = true := by
  constructor
  · have h1 : step s (Event.mainEventsCleared env₁)
        = acquireAndPresent s env₁ := stepTick_no_rebuild s env₁ hwr hrs
    rw [h1]
    unfold acquireAndPresent
    rw [hacq1]
    cases sub <;> simp [hfl, hi]
  · show (stepTick s env₂).1.panicked = true
    unfold stepTick
    split
    · cases henv : env₂.recreate with
      | error => simp
      | ok imgs =>
        split <;>
          simp [acquireAndPresent_err _ env₂ hacq2]
    · rw [acquireAndPresent_err s env₂ hacq2]

/-- C3 witness: the amended theorem at the startup state with a
failing flush and with a failing acquisition. -/
theorem C3_other_error_handling_witness :
    (Action.logWarn ∈ (step s0 (Event.mainEventsCleared envFlushErr)).2
      ∧ (step s0 (Event.mainEventsCleared envFlushErr)).1.panicked
          = s0.panicked
      ∧ (step s0 (Event.mainEventsCleared envFlushErr)).1.exited = s0.exited)
    ∧ (step s0 (Event.mainEventsCleared envAcqErr)).1.panicked = true :=
  C3_other_error_handling s0 envFlushErr envAcqErr 0 false rfl rfl rfl
    (by decide) rfl rfl

/-! ## C4 -/

/-- A tick whose swapchain recreation fails. -/
def envRecErr : TickEnv :=
  { recreate := RecreateResult.error
    acquire := AcquireResult.ok 0 false
    flush := FlushResult.ok }

/-- C4 (counterexample): with a rebuild pending, a failing swapchain
recreation panics (`expect("failed to recreate swapchain")`,
`main.rs` line 229) — the process terminates instead of retrying —
refuting the claim that recreation failure is handled non-fatally. -/
theorem C4_counterexample :
    (stepState sOOD (Event.mainEventsCleared envRecErr)).panicked = true := by
  decide

/-- C4 (amended): when the rebuild phase's swapchain recreation fails,
the loop panics: the state is marked panicked, a panic is the tick's
only observable action, and no further event is ever processed. There
is no retry path. -/
theorem C4_recreate_failure_fatal (s : LoopState) (env : TickEnv)
    (es : List Event)
    (h : s.window_resized = true ∨ s.recreate_swapchain = true)
    (hrec : env.recreate = RecreateResult.error) :
    (step s (Event.mainEventsCleared env)).1.panicked = true
    ∧ (step s (Event.mainEventsCleared env)).2 = [Action.panicAct]
    ∧ run (step s (Event.mainEventsCleared env)).1 es
        = (step s (Event.mainEventsCleared env)).1 := by
  have h1 : step s (Event.mainEventsCleared env)
      = ({ s with recreate_swapchain := false, panicked := true },
         [Action.panicAct]) := stepTick_recreate_error s env h hrec
  refine ⟨?_, ?_, ?_⟩
  · rw [h1]
  · rw [h1]
  · exact run_halted _ es (by rw [h1]; right; rfl)

/-- C4 witness: the amended theorem at the startup state with an
out-of-date report pending and a failing recreation, with one further
tick queued. -/
theorem C4_recreate_failure_fatal_witness :
    (step sOOD (Event.mainEventsCleared envRecErr)).1.panicked = true
    ∧ (step sOOD (Event.mainEventsCleared envRecErr)).2 = [Action.panicAct]
    ∧ run (step sOOD (Event.mainEventsCleared envRecErr)).1
        [Event.mainEventsCleared envNew3]
      = (step sOOD (Event.mainEventsCleared envRecErr)).1 :=
  C4_recreate_failure_fatal sOOD envRecErr [Event.mainEventsCleared envNew3]
    (Or.inr rfl) rfl

/-! ## C5 -/

/-- C5: a tick whose acquisition reports out-of-date issues no
submission and no present, raises the rebuild flag, and reports
nothing to the operator (no log, no panic). -/
theorem C5_out_of_date_skips_tick (s : LoopState) (env : TickEnv)
    (imgs : List Nat)
    (hrec : env.recreate = RecreateResult.ok imgs)
    (hacq : env.acquire = AcquireResult.outOfDate) :
    (step s (Event.mainEventsCleared env)).1.recreate_swapchain = true
    ∧ (∀ i, Action.submitPresent i ∉ (step s (Event.mainEventsCleared env)).2)
    ∧ Action.logWarn ∉ (step s (Event.mainEventsCleared env)).2
    ∧ Action.panicAct ∉ (step s (Event.mainEventsCleared env)).2 := by
  have hs : step s (Event.mainEventsCleared env) = stepTick s env := rfl
  rw [hs]
  cases hwr : s.window_resized with
  | true =>
    rw [stepTick_resized s env imgs hwr hrec,
      acquireAndPresent_ood _ env hacq]
    simp
  | false =>
    cases hrs : s.recreate_swapchain with
    | true =>
      rw [stepTick_ood_only s env imgs hwr hrs hrec,
        acquireAndPresent_ood _ env hacq]
      simp
    | false =>
      rw [stepTick_no_rebuild s env hwr hrs,
        acquireAndPresent_ood s env hacq]
      simp

/-- C5 witness: the theorem at the startup state with an out-of-date
acquisition, submission at index 0 among the excluded actions. -/
theorem C5_out_of_date_skips_tick_witness :
    (step s0 (Event.mainEventsCleared envOOD)).1.recreate_swapchain = true
    ∧ Action.submitPresent 0 ∉ (step s0 (Event.mainEventsCleared envOOD)).2
    ∧ Action.logWarn ∉ (step s0 (Event.mainEventsCleared envOOD)).2 :=
  ⟨(C5_out_of_date_skips_tick s0 envOOD [0, 1, 2] rfl rfl).1,
   (C5_out_of_date_skips_tick s0 envOOD [0, 1, 2] rfl rfl).2.1 0,
   (C5_out_of_date_skips_tick s0 envOOD [0, 1, 2] rfl rfl).2.2.1⟩

/-! ## C6 -/

lemma acquireAndPresent_suboptimal_oob (s : LoopState) (env : TickEnv)
    (i : Nat) (hacq : env.acquire = AcquireResult.ok i true)
    (hi : ¬ i < s.command_buffers.length) :
    acquireAndPresent s env
      = ({ s with recreate_swapchain := true, panicked := true },
         [Action.panicAct]) := by
  unfold acquireAndPresent
  rw [hacq]
  simp [hi]

/-- A tick whose acquisition succeeds with the suboptimal flag. -/
def envSub : TickEnv :=
  { recreate := RecreateResult.ok [0, 1, 2]
    acquire := AcquireResult.ok 1 true
    flush := FlushResult.ok }

/-- A tick whose acquisition succeeds with the suboptimal flag at
index 3 (valid for a four-image chain). -/
def envSubOOB : TickEnv :=
  { recreate := RecreateResult.ok [10, 11, 12, 13]
    acquire := AcquireResult.ok 3 true
    flush := FlushResult.ok }

/-- The loop back in `Running` after an out-of-date-only rebuild in
which the driver returned four images: the chain now has 4 images but
the untouched CommandSequence still has 3 entries. -/
def sStale : LoopState :=
  run s0 [Event.mainEventsCleared envOOD, Event.mainEventsCleared envNew4]

/-- C6 (counterexample): in the reachable `Running` state with a
four-image chain and a three-entry stale CommandSequence (after an
out-of-date-only rebuild), a tick whose acquisition succeeds at index
3 with the suboptimal flag never submits or presents that index: the
program panics at `command_buffers[image_i]` (`main.rs` line 269)
before any submission, so no rebuild ever happens either — refuting
the claim for this suboptimal tick. -/
theorem C6_counterexample :
    Action.submitPresent 3 ∉ (step sStale (Event.mainEventsCleared envSubOOB)).2
    ∧ (step sStale (Event.mainEventsCleared envSubOOB)).1.panicked = true
    ∧ sStale.window_resized = false
    ∧ sStale.recreate_swapchain = false
    ∧ sStale.panicked = false
    ∧ sStale.swapchain.images.length = 4
    ∧ sStale.command_buffers.length = 3 := by
  decide

/-- C6 (amended): in the `Running` state (no pending flags), a tick
whose acquisition succeeds but reports suboptimal still submits and
presents the acquired index during that tick and raises the rebuild
flag — provided the index lies within the current CommandSequence —
and the next tick then recreates the chain first, before any
acquisition.  If instead the acquired index is beyond the (possibly
stale) CommandSequence, the program panics indexing
`command_buffers[image_i]` before submitting anything. -/
theorem C6_suboptimal_completes_then_rebuilds (s : LoopState)
    (env env₂ : TickEnv) (imgs₂ : List Nat) (i : Nat)
    (hwr : s.window_resized = false) (hrs : s.recreate_swapchain = false)
    (hacq : env.acquire = AcquireResult.ok i true)
    (hrec2 : env₂.recreate = RecreateResult.ok imgs₂) :
    (i < s.command_buffers.length →
      Action.submitPresent i ∈ (step s (Event.mainEventsCleared env)).2
      ∧ (step s (Event.mainEventsCleared env)).1.recreate_swapchain = true
      ∧ (step (step s (Event.mainEventsCleared env)).1
            (Event.mainEventsCleared env₂)).2.head?
          = some (Action.recreateChain s.windowSize))
    ∧ (¬ i < s.command_buffers.length →
      (step s (Event.mainEventsCleared env)).1.panicked = true
      ∧ Action.submitPresent i
          ∉ (step s (Event.mainEventsCleared env)).2) := by
  have h1 : step s (Event.mainEventsCleared env) = acquireAndPresent s env :=
    stepTick_no_rebuild s env hwr hrs
  constructor
  · intro hi
    obtain ⟨hflag, hsub⟩ := acquireAndPresent_suboptimal s env i hacq hi
    obtain ⟨-, -, hws, hwres, -, -⟩ := acquireAndPresent_preserves s env
    refine ⟨by rw [h1]; exact hsub, by rw [h1]; exact hflag, ?_⟩
    rw [h1]
    have h2 := stepTick_ood_only (acquireAndPresent s env).1 env₂ imgs₂
      (by rw [hwres]; exact hwr) hflag hrec2
    show (stepTick (acquireAndPresent s env).1 env₂).2.head? = _
    rw [h2, hws]
    rfl
  · intro hi
    rw [h1, acquireAndPresent_suboptimal_oob s env i hacq hi]
    exact ⟨rfl, by simp⟩

/-- C6 witness: the amended theorem at the startup state with a
suboptimal acquisition at index 1 (in bounds: submit, flag, rebuild
first next tick), and at the stale state with a suboptimal acquisition
at index 3 (out of bounds: panic, nothing submitted). -/
theorem C6_suboptimal_completes_then_rebuilds_witness :
    (Action.submitPresent 1 ∈ (step s0 (Event.mainEventsCleared envSub)).2
      ∧ (step s0 (Event.mainEventsCleared envSub)).1.recreate_swapchain = true
      ∧ (step (step s0 (Event.mainEventsCleared envSub)).1
            (Event.mainEventsCleared envNew3)).2.head?
          = some (Action.recreateChain s0.windowSize))
    ∧ ((step sStale (Event.mainEventsCleared envSubOOB)).1.panicked = true
      ∧ Action.submitPresent 3
          ∉ (step sStale (Event.mainEventsCleared envSubOOB)).2) :=
  ⟨(C6_suboptimal_completes_then_rebuilds s0 envSub envNew3 [10, 11, 12] 1
      rfl rfl rfl rfl).1 (by decide),
   (C6_suboptimal_completes_then_rebuilds sStale envSubOOB envNew3
      [10, 11, 12] 3 (by decide) (by decide) rfl rfl).2 (by decide)⟩

/-! ## C8 -/

/-- C8: every command buffer produced by `get_command_buffers` records
exactly one draw call, with `vertex_count` the vertex buffer's length,
`instance_count = 1`, `first_vertex = 0`, `first_instance = 0`,
identically for every frame-resource entry; the startup vertex buffer
holds 3 vertices. -/
theorem C8_draw_call_parameters (pl : Pipeline) (fbs : List Framebuffer)
    (vb : VertexBuffer) :
    (∀ cb ∈ get_command_buffers pl fbs vb,
        cb.draws = [{ vertex_count := vb.data.length, instance_count := 1,
                      first_vertex := 0, first_instance := 0 }])
    ∧ vertex_buffer.data.length = 3 := by
  constructor
  · intro cb hcb
    simp [get_command_buffers] at hcb
    obtain ⟨fb, -, rfl⟩ := hcb
    rfl
  · rfl

/-- C8 witness: the property evaluated on the single command buffer
built for one concrete framebuffer. -/
theorem C8_draw_call_parameters_witness :
    ({ framebuffer := { image := 0, renderPass := render_pass_id }
       pipeline := get_pipeline device_id vs_id fs_id render_pass_id
         { extent := { width := 800, height := 600 } }
       vertexBuffer := vertex_buffer.id
       draws := [{ vertex_count := vertex_buffer.data.length,
                   instance_count := 1, first_vertex := 0,
                   first_instance := 0 }] : CommandBuffer }.draws
      = [{ vertex_count := vertex_buffer.data.length, instance_count := 1,
           first_vertex := 0, first_instance := 0 }])
    ∧ vertex_buffer.data.length = 3 :=
  ⟨(C8_draw_call_parameters
      (get_pipeline device_id vs_id fs_id render_pass_id
        { extent := { width := 800, height := 600 } })
      [{ image := 0, renderPass := render_pass_id }] vertex_buffer).1 _
    (by simp [get_command_buffers]),
   (C8_draw_call_parameters
      (get_pipeline device_id vs_id fs_id render_pass_id
        { extent := { width := 800, height := 600 } })
      [{ image := 0, renderPass := render_pass_id }] vertex_buffer).2⟩

/-! ## C7: the viewport invariant and resize idempotence -/

lemma acquireAndPresent_ok_ok (s : LoopState) (env : TickEnv) (i : Nat)
    (hacq : env.acquire = AcquireResult.ok i false)
    (hfl : env.flush = FlushResult.ok)
    (hi : i < s.command_buffers.length) :
    acquireAndPresent s env = (s, [Action.submitPresent i]) := by
  unfold acquireAndPresent
  rw [hacq, hfl]
  simp [hi]

/-- Invariant: whenever no resize is pending, every command buffer's
pipeline carries the window's latest reported size as its viewport
extent. -/
def viewportOk (s : LoopState) : Prop :=
  s.window_resized = false →
    ∀ cb ∈ s.command_buffers, cb.pipeline.viewport.extent = s.windowSize

lemma viewportOk_initial (initSize : Extent) (imgs0 : List Nat) :
    viewportOk (initialState initSize imgs0) := by
  intro _ cb hcb
  simp [initialState, get_command_buffers] at hcb
  obtain ⟨fb, -, rfl⟩ := hcb
  rfl

lemma viewportOk_step (s : LoopState) (e : Event) (h : viewportOk s) :
    viewportOk (stepState s e) := by
  cases e with
  | closeRequested => exact fun hwr => h hwr
  | other => exact h
  | resized sz =>
    intro hwr
    exact absurd hwr (by simp [stepState, step])
  | mainEventsCleared env =>
    show viewportOk (stepTick s env).1
    cases hwr : s.window_resized with
    | true =>
      cases hrec : env.recreate with
      | error =>
        rw [stepTick_recreate_error s env (Or.inl hwr) hrec]
        intro hwr2
        exact absurd (hwr.symm.trans hwr2) (by simp)
      | ok imgs =>
        rw [stepTick_resized s env imgs hwr hrec]
        intro _ cb hcb
        obtain ⟨hcbs, -, hws, -, -, -⟩ :=
          acquireAndPresent_preserves (rebuildAll s imgs) env
        rw [hcbs] at hcb
        rw [hws]
        simp [rebuildAll, get_command_buffers] at hcb
        obtain ⟨fb, -, rfl⟩ := hcb
        rfl
    | false =>
      cases hrs : s.recreate_swapchain with
      | true =>
        cases hrec : env.recreate with
        | error =>
          rw [stepTick_recreate_error s env (Or.inr hrs) hrec]
          intro _ cb hcb
          exact h hwr cb hcb
        | ok imgs =>
          rw [stepTick_ood_only s env imgs hwr hrs hrec]
          intro _ cb hcb
          obtain ⟨hcbs, -, hws, -, -, -⟩ :=
            acquireAndPresent_preserves (rebuildChainOnly s imgs) env
          rw [hcbs] at hcb
          rw [hws]
          exact h hwr cb hcb
      | false =>
        rw [stepTick_no_rebuild s env hwr hrs]
        intro _ cb hcb
        obtain ⟨hcbs, -, hws, -, -, -⟩ := acquireAndPresent_preserves s env
        rw [hcbs] at hcb
        rw [hws]
        exact h hwr cb hcb

lemma viewportOk_run (s : LoopState) (es : List Event) (h : viewportOk s) :
    viewportOk (run s es) := by
  induction es generalizing s with
  | nil => exact h
  | cons e es ih =>
    unfold run
    split
    · exact h
    · exact ih _ (viewportOk_step s e h)

/-- The joint effect of a resize event followed by a successful tick:
the whole state is renewed at the new size; only the termination flags
survive from the previous state. -/
lemma resize_tick_eq (s : LoopState) (sz : Extent) (env : TickEnv)
    (imgs : List Nat) (i : Nat)
    (hrec : env.recreate = RecreateResult.ok imgs)
    (hacq : env.acquire = AcquireResult.ok i false)
    (hfl : env.flush = FlushResult.ok) (hi : i < imgs.length) :
    stepState (stepState s (Event.resized sz)) (Event.mainEventsCleared env)
      = { windowSize := sz
          window_resized := false
          recreate_swapchain := false
          swapchain := { imageExtent := sz, images := imgs }
          viewport := { extent := sz }
          command_buffers :=
            get_command_buffers
              (get_pipeline device_id vs_id fs_id render_pass_id
                { extent := sz })
              (get_framebuffers imgs render_pass_id) vertex_buffer
          exited := s.exited
          panicked := s.panicked } := by
  have h1 : stepState s (Event.resized sz)
      = { s with windowSize := sz, window_resized := true } := rfl
  rw [h1]
  show (stepTick _ env).1 = _
  rw [stepTick_resized _ env imgs rfl hrec]
  have hlen : i < (rebuildAll
      { s with windowSize := sz, window_resized := true }
      imgs).command_buffers.length := by
    simpa [rebuildAll, length_get_command_buffers,
      length_get_framebuffers] using hi
  rw [show ((acquireAndPresent (rebuildAll
      { s with windowSize := sz, window_resized := true } imgs) env).1,
      Action.recreateChain
        ({ s with windowSize := sz, window_resized := true } :
          LoopState).windowSize ::
        Action.rebuildCommands ::
        (acquireAndPresent (rebuildAll
          { s with windowSize := sz, window_resized := true } imgs)
          env).2).1
    = (acquireAndPresent (rebuildAll
        { s with windowSize := sz, window_resized := true } imgs) env).1
    from rfl]
  rw [acquireAndPresent_ok_ok _ env i hacq hfl hlen]
  simp [rebuildAll]

/-- C7: (1) starting from the startup state, after any event sequence
that ends with no resize pending (the loop is back in `Running`),
every command buffer's pipeline has the window's latest reported size
as its viewport extent; (2) rebuilding is idempotent: processing a
resize to the same size with the same driver replies a second time
yields exactly the same state. -/
theorem C7_viewport_tracks_window (initSize : Extent) (imgs0 : List Nat)
    (es : List Event) (s : LoopState) (sz : Extent) (env : TickEnv)
    (imgs : List Nat) (i : Nat)
    (hrec : env.recreate = RecreateResult.ok imgs)
    (hacq : env.acquire = AcquireResult.ok i false)
    (hfl : env.flush = FlushResult.ok) (hi : i < imgs.length)
    (hwr : (run (initialState initSize imgs0) es).window_resized = false) :
    (∀ cb ∈ (run (initialState initSize imgs0) es).command_buffers,
        cb.pipeline.viewport.extent
          = (run (initialState initSize imgs0) es).windowSize)
    ∧ stepState (stepState (stepState (stepState s (Event.resized sz))
          (Event.mainEventsCleared env)) (Event.resized sz))
        (Event.mainEventsCleared env)
      = stepState (stepState s (Event.resized sz))
          (Event.mainEventsCleared env) := by
  constructor
  · exact viewportOk_run _ es (viewportOk_initial initSize imgs0) hwr
  · rw [resize_tick_eq s sz env imgs i hrec hacq hfl hi,
      resize_tick_eq _ sz env imgs i hrec hacq hfl hi]

/-- C7 witness: the theorem at the startup state after one resize to
400×300 and one successful tick. -/
theorem C7_viewport_tracks_window_witness :
    (∀ cb ∈ (run (initialState { width := 800, height := 600 } [0, 1, 2])
        [Event.resized { width := 400, height := 300 },
         Event.mainEventsCleared envNew3]).command_buffers,
        cb.pipeline.viewport.extent
          = (run (initialState { width := 800, height := 600 } [0, 1, 2])
              [Event.resized { width := 400, height := 300 },
               Event.mainEventsCleared envNew3]).windowSize)
    ∧ stepState (stepState (stepState (stepState s0
          (Event.resized { width := 400, height := 300 }))
          (Event.mainEventsCleared envNew3))
          (Event.resized { width := 400, height := 300 }))
        (Event.mainEventsCleared envNew3)
      = stepState (stepState s0
          (Event.resized { width := 400, height := 300 }))
          (Event.mainEventsCleared envNew3) :=
  C7_viewport_tracks_window { width := 800, height := 600 } [0, 1, 2]
    [Event.resized { width := 400, height := 300 },
     Event.mainEventsCleared envNew3]
    s0 { width := 400, height := 300 } envNew3 [10, 11, 12] 0
    rfl rfl rfl (by decide) (by decide)


/-! ## C9 -/

lemma maxByKeyLast_eq_none {A : Type} (key : A → Nat) (l : List A)
    (h : maxByKeyLast key l = none) : l = [] := by
  cases l with
  | nil => rfl
  | cons x xs => simp [maxByKeyLast] at h

lemma maxByKeyLast_mem {A : Type} (key : A → Nat) (l : List A) (m : A)
    (h : maxByKeyLast key l = some m) : m ∈ l := by
  induction l generalizing m with
  | nil => simp [maxByKeyLast] at h
  | cons x xs ih =>
    unfold maxByKeyLast at h
    rcases hx : maxByKeyLast key xs with _ | m2 <;> rw [hx] at h <;>
      simp [Option.elim] at h
    · simp [h]
    · split at h
      · simp [h]
      · exact List.mem_cons_of_mem x (ih m (h ▸ hx))

lemma maxByKeyLast_le {A : Type} (key : A → Nat) (l : List A) (m : A)
    (h : maxByKeyLast key l = some m) : ∀ x ∈ l, key x ≤ key m := by
  induction l generalizing m with
  | nil => simp
  | cons a xs ih =>
    unfold maxByKeyLast at h
    rcases hx : maxByKeyLast key xs with _ | m2 <;> rw [hx] at h <;>
      simp [Option.elim] at h
    · intro x hxmem
      rcases List.mem_cons.mp hxmem with hxa | hxs
      · subst hxa h
        exact Nat.le_refl _
      · rw [maxByKeyLast_eq_none key xs hx] at hxs
        exact absurd hxs (List.not_mem_nil x)
    · intro x hxmem
      rcases List.mem_cons.mp hxmem with hxa | hxs
      · subst hxa
        split at h <;> subst h
        · exact Nat.le_refl _
        · rename_i hlt
          exact Nat.le_of_not_lt hlt
      · split at h <;> subst h
        · rename_i hlt
          exact Nat.le_of_lt (Nat.lt_of_le_of_lt (ih m2 hx x hxs) hlt)
        · exact ih m2 hx x hxs

lemma findQueueFamily_spec (d : PhysicalDevice) (i : Nat)
    (h : findQueueFamily d = some i) :
    ∃ q, d.queueFamilies.get? i = some q ∧ q.hasGraphics = true
      ∧ q.surfaceSupport = some true := by
  unfold findQueueFamily at h
  have hp : surface_support d i = true := List.find?_some h
  have hmem := List.mem_of_find?_eq_some h
  rw [List.mem_filterMap] at hmem
  obtain ⟨iq, hiq, hf⟩ := hmem
  have hgr : iq.2.hasGraphics = true ∧ iq.1 = i := by
    by_cases hg : iq.2.hasGraphics
    · rw [if_pos hg] at hf
      exact ⟨hg, Option.some.inj hf⟩
    · rw [if_neg hg] at hf
      exact absurd hf (by simp)
  have hiq2 : (i, iq.2) ∈ d.queueFamilies.enum := by
    rw [← hgr.2]
    exact hiq
  have hget : d.queueFamilies.get? i = some iq.2 := by
    rw [List.get?_eq_getElem?]
    exact List.mk_mem_enum_iff_getElem?.mp hiq2
  refine ⟨iq.2, hget, hgr.1, ?_⟩
  unfold surface_support at hp
  rw [hget] at hp
  simp [Option.elim] at hp
  cases hs : iq.2.surfaceSupport with
  | none => rw [hs] at hp; simp at hp
  | some b => rw [hs] at hp; simp at hp; rw [hp]

/-- An eligible discrete GPU. -/
def discreteDevice : PhysicalDevice :=
  { apiVersion := { major := 1, minor := 3, patch := 0 }
    supportsRequiredExtensions := true
    queueFamilies := [{ hasGraphics := true, surfaceSupport := some true }]
    deviceType := PhysicalDeviceType.discreteGpu }

/-- An eligible CPU-type device. -/
def cpuDevice : PhysicalDevice :=
  { apiVersion := { major := 1, minor := 3, patch := 0 }
    supportsRequiredExtensions := true
    queueFamilies := [{ hasGraphics := true, surfaceSupport := some true }]
    deviceType := PhysicalDeviceType.cpu }

/-- C9: any device returned by `select_physical_device` has API version
at least 1.3 and the required extensions, the returned queue-family
index has the GRAPHICS flag and supports the surface, and the device
maximizes the ranking key (DiscreteGpu = 0, IntegratedGpu = 1,
VirtualGpu = 2, Cpu = 3, other = 4) among all eligible devices — so
with an eligible DiscreteGpu and an eligible Cpu device both present,
the Cpu device is selected. -/
theorem C9_select_physical_device (devices : List PhysicalDevice)
    (d : PhysicalDevice) (i : Nat)
    (h : select_physical_device devices = some (d, i)) :
    Version.le V1_3 d.apiVersion = true
    ∧ d.supportsRequiredExtensions = true
    ∧ (∃ q, d.queueFamilies.get? i = some q ∧ q.hasGraphics = true
        ∧ q.surfaceSupport = some true)
    ∧ (∀ p ∈ eligibleDevices devices,
        deviceRank p.1.deviceType ≤ deviceRank d.deviceType)
    ∧ select_physical_device [discreteDevice, cpuDevice]
        = some (cpuDevice, 0) := by
  unfold select_physical_device at h
  have hmem := maxByKeyLast_mem _ _ _ h
  have hle := maxByKeyLast_le _ _ _ h
  unfold eligibleDevices at hmem
  rw [List.mem_filterMap] at hmem
  obtain ⟨d2, hd2mem, hd2⟩ := hmem
  rw [Option.map_eq_some'] at hd2
  obtain ⟨i2, hfind, heq⟩ := hd2
  have hdd : d2 = d ∧ i2 = i := by
    constructor
    · exact congrArg Prod.fst heq
    · exact congrArg Prod.snd heq
  obtain ⟨rfl, rfl⟩ := hdd
  rw [List.mem_filter] at hd2mem
  obtain ⟨hd2mem1, hext⟩ := hd2mem
  rw [List.mem_filter] at hd2mem1
  obtain ⟨-, hver⟩ := hd2mem1
  exact ⟨hver, hext, findQueueFamily_spec d2 i2 hfind, hle, by decide⟩

/-- C9 witness: the theorem at a two-device list containing an
eligible DiscreteGpu and an eligible Cpu device; the Cpu device wins. -/
theorem C9_select_physical_device_witness :
    Version.le V1_3 cpuDevice.apiVersion = true
    ∧ cpuDevice.supportsRequiredExtensions = true
    ∧ (∃ q, cpuDevice.queueFamilies.get? 0 = some q ∧ q.hasGraphics = true
        ∧ q.surfaceSupport = some true)
    ∧ (∀ p ∈ eligibleDevices [discreteDevice, cpuDevice],
        deviceRank p.1.deviceType ≤ deviceRank cpuDevice.deviceType)
    ∧ select_physical_device [discreteDevice, cpuDevice]
        = some (cpuDevice, 0) :=
  C9_select_physical_device [discreteDevice, cpuDevice] cpuDevice 0
    (by decide)

/-! ## C10 -/

/-- Does an action recreate the presentation chain? -/
def isRecreate : Action → Bool
  | Action.recreateChain _ => true
  | _ => false

lemma acquireAndPresent_filter_recreate (s : LoopState) (env : TickEnv) :
    (acquireAndPresent s env).2.filter isRecreate = [] := by
  unfold acquireAndPresent
  cases env.acquire with
  | outOfDate => simp
  | err => simp [isRecreate]
  | ok i sub =>
    cases sub <;> simp <;> split <;> cases env.flush <;> simp [isRecreate]

lemma run_cons_active (s : LoopState) (e : Event) (es : List Event)
    (hex : s.exited = false) (hp : s.panicked = false) :
    run s (e :: es) = run (stepState s e) es := by
  simp only [run, hex, hp]
  simp

lemma run_resized_list (s : LoopState) (szs : List Extent) (sz : Extent)
    (hex : s.exited = false) (hp : s.panicked = false)
    (hlast : szs.getLast? = some sz) :
    run s (szs.map Event.resized)
      = { s with windowSize := sz, window_resized := true } := by
  induction szs generalizing s with
  | nil => simp at hlast
  | cons a t ih =>
    cases t with
    | nil =>
      simp at hlast
      subst hlast
      rw [List.map_cons, List.map_nil, run_cons_active s _ [] hex hp]
      rfl
    | cons b t2 =>
      rw [List.getLast?_cons_cons] at hlast
      rw [List.map_cons, run_cons_active s _ _ hex hp]
      have h2 := ih (stepState s (Event.resized a)) hex hp hlast
      rw [h2]
      rfl

/-- C10: the handler of a resize event issues no call at all (the
payload is only used to raise the flag; the size it carries is
discarded); any number of resize events arriving before a tick are
coalesced into exactly one chain recreation during that tick, at the
window's final size, and the command buffers rebuilt in that tick all
carry that final size as their viewport extent. -/
theorem C10_resize_coalescing (s : LoopState) (szs : List Extent)
    (sz : Extent) (env : TickEnv) (imgs : List Nat)
    (hex : s.exited = false) (hp : s.panicked = false)
    (hlast : szs.getLast? = some sz)
    (hrec : env.recreate = RecreateResult.ok imgs) :
    (∀ sz2, (step s (Event.resized sz2)).2 = [])
    ∧ ((step (run s (szs.map Event.resized))
          (Event.mainEventsCleared env)).2.filter isRecreate
        = [Action.recreateChain sz])
    ∧ ∀ cb ∈ (step (run s (szs.map Event.resized))
          (Event.mainEventsCleared env)).1.command_buffers,
        cb.pipeline.viewport.extent = sz := by
  have hrun := run_resized_list s szs sz hex hp hlast
  have hmain : step (run s (szs.map Event.resized))
      (Event.mainEventsCleared env)
      = stepTick { s with windowSize := sz, window_resized := true } env := by
    rw [hrun]
    rfl
  have htick := stepTick_resized
    { s with windowSize := sz, window_resized := true } env imgs rfl hrec
  refine ⟨fun sz2 => rfl, ?_, ?_⟩
  · rw [hmain, htick]
    simp [isRecreate, acquireAndPresent_filter_recreate]
  · intro cb hcb
    rw [hmain, htick] at hcb
    obtain ⟨hcbs, -⟩ := acquireAndPresent_preserves
      (rebuildAll { s with windowSize := sz, window_resized := true } imgs)
      env
    rw [show ((acquireAndPresent (rebuildAll
          { s with windowSize := sz, window_resized := true } imgs) env).1,
        Action.recreateChain sz :: Action.rebuildCommands ::
          (acquireAndPresent (rebuildAll
            { s with windowSize := sz, window_resized := true } imgs)
            env).2).1
      = (acquireAndPresent (rebuildAll
          { s with windowSize := sz, window_resized := true } imgs) env).1
      from rfl] at hcb
    rw [hcbs] at hcb
    simp [rebuildAll, get_command_buffers] at hcb
    obtain ⟨fb, -, rfl⟩ := hcb
    rfl

/-- C10 witness: two resize events (500×500 then 400×300) before one
tick; the tick recreates the chain exactly once, at 400×300. -/
theorem C10_resize_coalescing_witness :
    ((step s0 (Event.resized { width := 123, height := 456 })).2 = [])
    ∧ ((step (run s0 ([{ width := 500, height := 500 },
            { width := 400, height := 300 }].map Event.resized))
          (Event.mainEventsCleared envNew3)).2.filter isRecreate
        = [Action.recreateChain { width := 400, height := 300 }]) :=
  ⟨(C10_resize_coalescing s0
      [{ width := 500, height := 500 }, { width := 400, height := 300 }]
      { width := 400, height := 300 } envNew3 [10, 11, 12]
      rfl rfl rfl rfl).1 { width := 123, height := 456 },
   (C10_resize_coalescing s0
      [{ width := 500, height := 500 }, { width := 400, height := 300 }]
      { width := 400, height := 300 } envNew3 [10, 11, 12]
      rfl rfl rfl rfl).2.1⟩

end Thorus
